import Mathlib

/-!
A shallow embedding of `src/LabVIEW_python_ploter.py` (class `PlotEngine` and
its LabVIEW wrapper functions), together with theorems settling the
specification claims about it.

Modelling conventions:
* Python floats coming from LabVIEW arrays are modelled by `RVal`: either a
  rational number or one of the non-finite values NaN, +inf, -inf.
  `np.isnan` is `RVal.isnan`, `np.isfinite` is `RVal.isfinite`.
* A parsed JSON configuration is `Config`, an association list from string
  keys to JSON values (`JVal`).  `json.loads(json_config)` is modelled by
  passing the parse result directly: `some config` when the string parses to
  a mapping, `none` when `json.loads` raises `ValueError`/`TypeError`.
* Each renderer returns an "outcome" structure recording its observable
  behaviour: the returned status string, whether `fig.savefig` was reached,
  and the values the embedded control flow feeds to the plotting library.
-/

/-- A JSON value, as produced by Python's `json.loads`. -/
inductive JVal where
  | null : JVal
  | bool : Bool → JVal
  | num : ℚ → JVal
  | str : String → JVal
  | arr : List JVal → JVal

/-- `val is None` for a JSON value (JSON `null` loads as Python `None`). -/
def JVal.isNull : JVal → Bool
  | .null => true
  | _ => false

/-- `val == ""` for a JSON value (only the empty string compares equal). -/
def JVal.isEmptyStr : JVal → Bool
  | .str "" => true
  | _ => false

/-- A parsed JSON configuration mapping (Python dict from `json.loads`). -/
def Config := List (String × JVal)

/-- Dictionary lookup, `config[key]` / `key in config`. -/
def lookupConfig (config : Config) (key : String) : Option JVal :=
  match config with
  | [] => none
  | (k, v) :: rest => if k = key then some v else lookupConfig rest key

/-- Python truthiness of a JSON value (`if val:` / `if not val:`). -/
def JVal.truthy : JVal → Bool
  | .null => false
  | .bool b => b
  | .num q => if q = 0 then false else true
  | .str s => if s = "" then false else true
  | .arr [] => false
  | .arr (_ :: _) => true

/-- A LabVIEW numeric array element: a float that may be NaN or infinite. -/
inductive RVal where
  | num : ℚ → RVal
  | nan : RVal
  | inf : RVal
  | ninf : RVal
deriving DecidableEq, Repr

/-- `np.isnan` on one value. -/
def RVal.isnan : RVal → Bool
  | .nan => true
  | _ => false

/-- `np.isfinite` on one value (true only for ordinary numbers). -/
def RVal.isfinite : RVal → Bool
  | .num _ => true
  | _ => false

/-- The style keys supported by `_get_line_style`
(`keys = ["color", "linestyle", "linewidth", "marker", "alpha"]`). -/
def styleKeys : List String := ["color", "linestyle", "linewidth", "marker", "alpha"]

/-- The loop body of `_get_line_style`: for each `key` in `keys`, look up
`f"{prefix}{key}"` and keep the value only if it is not `None` and not the
empty string. -/
def styleArgsAux (config : Config) (pfx : String) : List String → List (String × JVal)
  | [] => []
  | key :: rest =>
    match lookupConfig config (pfx ++ key) with
    | some val =>
        if !val.isNull && !val.isEmptyStr then
          (key, val) :: styleArgsAux config pfx rest
        else
          styleArgsAux config pfx rest
    | none => styleArgsAux config pfx rest

/-- `PlotEngine._get_line_style(config, prefix)`. -/
def get_line_style (config : Config) (pfx : String) : List (String × JVal) :=
  styleArgsAux config pfx styleKeys

/-- Observable behaviour of `PlotEngine.plot_line`. -/
structure LineOutcome where
  styleArgs : List (String × JVal)
  fileSaved : Bool
  ret : String

/-- `PlotEngine.plot_line(x_data, y_data, json_config, save_path)`:
parse the config (empty mapping on parse failure), extract the style
arguments, plot, save, return `"Success"`. -/
def plot_line (json_cfg : Option Config) (_x_data _y_data : List RVal) : LineOutcome :=
  let config := json_cfg.getD []
  { styleArgs := get_line_style config ""
    fileSaved := true
    ret := "Success" }

/-- A JSON value used as a Python sequence: a JSON array yields its items, a
string yields its one-character substrings; on any other value `len` raises
`TypeError` (modelled as `none`). -/
def JVal.seqItems : JVal → Option (List JVal)
  | .arr l => some l
  | .str s => some (s.data.map fun c => .str (String.singleton c))
  | _ => none

/-- The label for row `i` in `plot_multi_line`:
`lbl = labels[i] if i < len(labels) else f"Line {i+1}"`; `none` models the
`TypeError` raised by `len` on a non-sequence `labels` value. -/
def rowLabel (labels : JVal) (i : ℕ) : Option JVal :=
  match labels.seqItems with
  | none => none
  | some l =>
      if i < l.length then some (l.getD i .null)
      else some (.str ("Line " ++ toString (i + 1)))

/-- The `for i, y_row in enumerate(y_data_2d)` loop of `plot_multi_line`,
collecting the label used for each of `n` rows starting at row index `i`. -/
def rowLabelsLoop (labels : JVal) : ℕ → ℕ → Option (List JVal)
  | _, 0 => some []
  | i, n + 1 =>
    match rowLabel labels i with
    | none => none
    | some l =>
      match rowLabelsLoop labels (i + 1) n with
      | none => none
      | some rest => some (l :: rest)

/-- Observable behaviour of `PlotEngine.plot_multi_line`. -/
structure MultiLineOutcome where
  usedLabels : List JVal
  baseStyle : List (String × JVal)
  fileSaved : Bool
  ret : String

/-- `PlotEngine.plot_multi_line(x_data, y_data_2d, json_config, save_path)`:
`labels = config.get("labels", [])`, one plotted line per row of `y_data_2d`
with a looked-up or generated label, then save and return `"Success"`.
`none` models an exception propagating out of the row loop. -/
def plot_multi_line (json_cfg : Option Config) (_x_data : List RVal)
    (y_data_2d : List (List RVal)) : Option MultiLineOutcome :=
  let config := json_cfg.getD []
  let labels := (lookupConfig config "labels").getD (.arr [])
  match rowLabelsLoop labels 0 y_data_2d.length with
  | none => none
  | some ls =>
      some { usedLabels := ls
             baseStyle := get_line_style config ""
             fileSaved := true
             ret := "Success" }

/-- Cleaning of one data group:
`clean_group = [val for val in group if not np.isnan(val)]`. -/
def cleanGroup (group : List RVal) : List RVal :=
  group.filter fun v => !v.isnan

/-- The `for i, group in enumerate(data_groups)` cleaning loop of
`plot_boxplot_regression`, over the enumerated groups: a group is kept iff its
cleaned form is non-empty, and for each kept group at index `i` the position
`x_positions[i]` is kept when `x_positions is not None and i < len(x_positions)`. -/
def cleanLoop (x_positions : Option (List RVal)) :
    List (ℕ × List RVal) → List (List RVal) × List RVal
  | [] => ([], [])
  | (i, group) :: rest =>
    let tail := cleanLoop x_positions rest
    let clean_group := cleanGroup group
    if clean_group.length > 0 then
      (clean_group :: tail.1,
        match x_positions with
        | some xs => if i < xs.length then xs.getD i RVal.nan :: tail.2 else tail.2
        | none => tail.2)
    else tail

/-- `cleaned_groups` and `valid_x_positions` after the cleaning step. -/
def cleanData (x_positions : Option (List RVal)) (data_groups : List (List RVal)) :
    List (List RVal) × List RVal :=
  cleanLoop x_positions data_groups.enum

/-- The effective box colour:
`box_color = config.get("box_color")`; `if not box_color: box_color = "black"`. -/
def boxColorEff (config : Config) : JVal :=
  let bc := (lookupConfig config "box_color").getD .null
  if bc.truthy then bc else .str "black"

/-- Observable behaviour of `PlotEngine.plot_boxplot_regression`. -/
structure BoxplotOutcome where
  ret : String
  fileSaved : Bool
  boxplotDrawn : Bool
  boxColor : JVal
  usedPositions : Option (List RVal)
  regressionComputed : Bool
  regressionLineDrawn : Bool
  regStyle : List (String × JVal)
  statsShown : Bool

/-- `PlotEngine.plot_boxplot_regression(data_groups, x_positions, json_config,
save_path)`: clean the data, return the empty-data error string (without
saving) if nothing survives, otherwise draw the boxplot (with positions only
when the filtered positions match the surviving group count), run the
regression when positions are usable and more than one point remains, and
return `"Success"` after saving. -/
def plot_boxplot_regression (json_cfg : Option Config) (data_groups : List (List RVal))
    (x_positions : Option (List RVal)) : BoxplotOutcome :=
  let config := json_cfg.getD []
  let cleaned := cleanData x_positions data_groups
  let cleaned_groups := cleaned.1
  let valid_x_positions := cleaned.2
  if cleaned_groups.length = 0 then
    { ret := "Error: No valid data found (all NaNs or empty)"
      fileSaved := false, boxplotDrawn := false, boxColor := .null
      usedPositions := none, regressionComputed := false
      regressionLineDrawn := false, regStyle := [], statsShown := false }
  else
    let use_positions : Option (List RVal) :=
      if x_positions.isSome && valid_x_positions.length == cleaned_groups.length then
        some valid_x_positions
      else none
    let flatLen := (cleaned_groups.map List.length).sum
    let doReg := use_positions.isSome && decide (1 < flatLen)
    let reg_style0 := get_line_style config "reg_"
    let reg_style :=
      if reg_style0.length = 0 then
        [("color", JVal.str "red"), ("linestyle", JVal.str "--"),
         ("linewidth", JVal.num (3 / 2))]
      else reg_style0
    { ret := "Success", fileSaved := true, boxplotDrawn := true
      boxColor := boxColorEff config, usedPositions := use_positions
      regressionComputed := doReg, regressionLineDrawn := doReg
      regStyle := if doReg then reg_style else []
      statsShown := doReg && ((lookupConfig config "show_stats").getD (.bool true)).truthy }

/-- `np.mean` of the flattened values (with the ℚ convention `x / 0 = 0` on an
empty list, a case the caller never reaches). -/
def listMean (l : List ℚ) : ℚ := l.sum / l.length

/-- `ss_res = np.sum(residuals**2)` with `residuals = flat_y - y_pred` and
`y_pred = slope * flat_x + intercept`. -/
def ss_res_calc (flat_x flat_y : List ℚ) (slope intercept : ℚ) : ℚ :=
  ((flat_x.zip flat_y).map fun p => (p.2 - (slope * p.1 + intercept)) ^ 2).sum

/-- `ss_tot = np.sum((flat_y - np.mean(flat_y))**2)`. -/
def ss_tot_calc (flat_y : List ℚ) : ℚ :=
  (flat_y.map fun y => (y - listMean flat_y) ^ 2).sum

/-- `r_squared = 1 - (ss_res / ss_tot) if ss_tot != 0 else 0.0`:
the R² computation of `plot_boxplot_regression` (lines 169-176), over the
flattened coordinate/value arrays, given the fitted slope and intercept. -/
def r_squared_calc (flat_x flat_y : List ℚ) (slope intercept : ℚ) : ℚ :=
  if ss_tot_calc flat_y ≠ 0 then
    1 - ss_res_calc flat_x flat_y slope intercept / ss_tot_calc flat_y
  else 0

/-- `x_vec is not None and len(x_vec) > 1` (one side of the axis-vector test
in `plot_colormap`). -/
def axisValid : Option (List RVal) → Bool
  | some v => decide (1 < v.length)
  | none => false

/-- Observable behaviour of `PlotEngine.plot_colormap`. -/
structure ColormapOutcome where
  plot_extent : Option (List RVal)
  origin_mode : String
  cmapUsed : JVal
  colorbarShown : Bool
  fileSaved : Bool
  ret : String

/-- `PlotEngine.plot_colormap(data_2d, x_vec, y_vec, json_config, save_path)`:
when both axis vectors are present with length > 1, the extent is
`[x_vec[0], x_vec[-1], y_vec[0], y_vec[-1]]` and the origin stays `'lower'`;
otherwise the extent stays `None` and the origin becomes `'upper'`. -/
def plot_colormap (json_cfg : Option Config) (_data_2d : List (List RVal))
    (x_vec y_vec : Option (List RVal)) : ColormapOutcome :=
  let config := json_cfg.getD []
  let valid := axisValid x_vec && axisValid y_vec
  let plot_extent : Option (List RVal) :=
    if valid then
      let xs := x_vec.getD []
      let ys := y_vec.getD []
      some [xs.getD 0 .nan, xs.getLastD .nan, ys.getD 0 .nan, ys.getLastD .nan]
    else none
  let origin_mode := if valid then "lower" else "upper"
  { plot_extent := plot_extent
    origin_mode := origin_mode
    cmapUsed := (lookupConfig config "cmap").getD (.str "viridis")
    colorbarShown := ((lookupConfig config "show_colorbar").getD (.bool true)).truthy
    fileSaved := true
    ret := "Success" }

/-- Wrapper `call_plot_line(engine, x_array, y_array, json_config, path)`. -/
def call_plot_line (json_cfg : Option Config) (x_array y_array : List RVal) : LineOutcome :=
  plot_line json_cfg x_array y_array

/-- Wrapper `call_plot_multi_line(engine, x_array, y_data_2d, json_config, path)`. -/
def call_plot_multi_line (json_cfg : Option Config) (x_array : List RVal)
    (y_data_2d : List (List RVal)) : Option MultiLineOutcome :=
  plot_multi_line json_cfg x_array y_data_2d

/-- Wrapper `call_plot_boxplot_regression(engine, data_groups, x_positions,
json_config, path)`: `if len(data_groups) == 0: return "Error: No Data"`,
otherwise delegate to the renderer. -/
def call_plot_boxplot_regression (json_cfg : Option Config) (data_groups : List (List RVal))
    (x_positions : Option (List RVal)) : BoxplotOutcome :=
  if data_groups.length = 0 then
    { ret := "Error: No Data"
      fileSaved := false, boxplotDrawn := false, boxColor := .null
      usedPositions := none, regressionComputed := false
      regressionLineDrawn := false, regStyle := [], statsShown := false }
  else
    plot_boxplot_regression json_cfg data_groups x_positions

/-- Wrapper `call_plot_colormap(engine, data_2d, x_vec, y_vec, json_config,
path)`: empty axis arrays are turned into `None` before delegating. -/
def call_plot_colormap (json_cfg : Option Config) (data_2d : List (List RVal))
    (x_vec y_vec : List RVal) : ColormapOutcome :=
  let xv := if x_vec.length = 0 then none else some x_vec
  let yv := if y_vec.length = 0 then none else some y_vec
  plot_colormap json_cfg data_2d xv yv

/-! ## Helper lemmas about the cleaning step -/

theorem cleanLoop_fst (xp : Option (List RVal)) (l : List (ℕ × List RVal)) :
    (cleanLoop xp l).1 = (l.map fun p => cleanGroup p.2).filter fun g => g.length > 0 := by
  induction l with
  | nil => rfl
  | cons p rest ih =>
    simp only [cleanLoop, List.map_cons, List.filter_cons]
    by_cases h : (cleanGroup p.2).length > 0
    · simp [h, ih]
    · simp [h, ih, List.filter_cons]

theorem cleanLoop_fst_nil (xp : Option (List RVal)) (l : List (ℕ × List RVal))
    (h : ∀ p ∈ l, cleanGroup p.2 = []) : (cleanLoop xp l).1 = [] := by
  induction l with
  | nil => rfl
  | cons p rest ih =>
    have hp : cleanGroup p.2 = [] := h p (by simp)
    simp only [cleanLoop, hp]
    exact ih fun q hq => h q (by simp [hq])

theorem cleanLoop_snd_some (xs : List RVal) (l : List (ℕ × List RVal)) :
    (cleanLoop (some xs) l).2 =
      l.filterMap fun p =>
        if (cleanGroup p.2).length > 0 then
          (if p.1 < xs.length then some (xs.getD p.1 RVal.nan) else none)
        else none := by
  induction l with
  | nil => rfl
  | cons p rest ih =>
    simp only [cleanLoop, List.filterMap_cons]
    by_cases h : (cleanGroup p.2).length > 0
    · by_cases h2 : p.1 < xs.length
      · simp [h, h2, ih]
      · simp [h, h2, ih]
    · simp [h, ih]

theorem cleanLoop_snd_none (l : List (ℕ × List RVal)) : (cleanLoop none l).2 = [] := by
  induction l with
  | nil => rfl
  | cons p rest ih =>
    simp only [cleanLoop]
    by_cases h : (cleanGroup p.2).length > 0
    · simp [h, ih]
    · simp [h, ih]

/-- C1: when every data group is empty or contains only NaN values,
`plot_boxplot_regression` returns the specific empty-data error string and
never reaches the save step. -/
theorem boxplot_allnan_error (json_cfg : Option Config) (data_groups : List (List RVal))
    (x_positions : Option (List RVal))
    (h : ∀ g ∈ data_groups, ∀ v ∈ g, v.isnan = true) :
    (plot_boxplot_regression json_cfg data_groups x_positions).ret
        = "Error: No valid data found (all NaNs or empty)" ∧
    (plot_boxplot_regression json_cfg data_groups x_positions).fileSaved = false := by
  have hnil : (cleanData x_positions data_groups).1 = [] := by
    apply cleanLoop_fst_nil
    intro p hp
    have hmem : p.2 ∈ data_groups := List.getElem?_mem (List.mem_enum_iff_getElem?.mp hp)
    simp only [cleanGroup, List.filter_eq_nil_iff]
    intro v hv
    simp [h p.2 hmem v hv]
  simp [plot_boxplot_regression, hnil]

theorem boxplot_allnan_error_witness :
    (plot_boxplot_regression none [[RVal.nan], []] none).ret
        = "Error: No valid data found (all NaNs or empty)" ∧
    (plot_boxplot_regression none [[RVal.nan], []] none).fileSaved = false :=
  boxplot_allnan_error none [[RVal.nan], []] none (by decide)

/-- C2: the R² of `plot_boxplot_regression` is `1 - ss_res / ss_tot` whenever
the total sum of squares is non-zero, and is exactly `0` when all flattened
y-values are identical (so that `ss_tot = 0`), rather than a division by
zero. -/
theorem rsq_formula_and_zero (flat_x flat_y : List ℚ) (slope intercept : ℚ) :
    (ss_tot_calc flat_y ≠ 0 →
      r_squared_calc flat_x flat_y slope intercept
        = 1 - ss_res_calc flat_x flat_y slope intercept / ss_tot_calc flat_y) ∧
    (∀ c : ℚ, (∀ y ∈ flat_y, y = c) →
      r_squared_calc flat_x flat_y slope intercept = 0) := by
  constructor
  · intro h
    simp [r_squared_calc, h]
  · intro c hc
    have hst : ss_tot_calc flat_y = 0 := by
      rcases eq_or_ne flat_y [] with hnil | hne
      · simp [hnil, ss_tot_calc]
      · have hlen : (flat_y.length : ℚ) ≠ 0 := by
          exact_mod_cast Nat.pos_iff_ne_zero.mp (List.length_pos.mpr hne)
        have hmean : listMean flat_y = c := by
          rw [listMean, List.sum_eq_card_nsmul flat_y c hc, nsmul_eq_mul]
          exact mul_div_cancel_left₀ c hlen
        apply List.sum_eq_zero
        intro x hx
        rcases List.mem_map.mp hx with ⟨y, hy, rfl⟩
        rw [hc y hy, hmean]
        ring
    simp [r_squared_calc, hst]

theorem rsq_formula_and_zero_witness :
    r_squared_calc [0, 1] [1, 3] 2 1
        = 1 - ss_res_calc [0, 1] [1, 3] 2 1 / ss_tot_calc [1, 3] ∧
    r_squared_calc [0, 1] [5, 5] 0 5 = 0 :=
  ⟨(rsq_formula_and_zero [0, 1] [1, 3] 2 1).1 (by norm_num [ss_tot_calc, listMean]),
   (rsq_formula_and_zero [0, 1] [5, 5] 0 5).2 5 (by norm_num)⟩

/-- C3: with both axis vectors supplied and longer than one element, the
image extent is `[x[0], x[-1], y[0], y[-1]]` and the origin mode is
`'lower'`; if either vector is absent or not longer than one element, the
extent is `None` and the origin mode is `'upper'`. -/
theorem colormap_extent_origin (json_cfg : Option Config) (data_2d : List (List RVal))
    (x_vec y_vec : Option (List RVal)) :
    (∀ xs ys, x_vec = some xs → y_vec = some ys → 1 < xs.length → 1 < ys.length →
      (plot_colormap json_cfg data_2d x_vec y_vec).plot_extent
          = some [xs.getD 0 RVal.nan, xs.getLastD RVal.nan,
                  ys.getD 0 RVal.nan, ys.getLastD RVal.nan] ∧
      (plot_colormap json_cfg data_2d x_vec y_vec).origin_mode = "lower") ∧
    ((axisValid x_vec = false ∨ axisValid y_vec = false) →
      (plot_colormap json_cfg data_2d x_vec y_vec).plot_extent = none ∧
      (plot_colormap json_cfg data_2d x_vec y_vec).origin_mode = "upper") := by
  constructor
  · rintro xs ys rfl rfl hx hy
    simp [plot_colormap, axisValid, hx, hy]
  · rintro (h | h) <;> simp [plot_colormap, h]

theorem colormap_extent_origin_witness :
    ((plot_colormap none [] (some [RVal.num 1, RVal.num 2])
          (some [RVal.num 3, RVal.num 4])).plot_extent
        = some [RVal.num 1, RVal.num 2, RVal.num 3, RVal.num 4] ∧
      (plot_colormap none [] (some [RVal.num 1, RVal.num 2])
          (some [RVal.num 3, RVal.num 4])).origin_mode = "lower") ∧
    ((plot_colormap none [] (some [RVal.num 1]) none).plot_extent = none ∧
      (plot_colormap none [] (some [RVal.num 1]) none).origin_mode = "upper") :=
  ⟨(colormap_extent_origin none [] (some [RVal.num 1, RVal.num 2])
      (some [RVal.num 3, RVal.num 4])).1 _ _ rfl rfl (by decide) (by decide),
   (colormap_extent_origin none [] (some [RVal.num 1]) none).2 (Or.inr rfl)⟩

/-- C4 counterexample: the boxplot wrapper returns a second explicit error
string, `"Error: No Data"`, for an empty group list — a non-`"Success"`
return value different from the renderer's no-valid-data error string. -/
theorem second_error_string_counterexample :
    (call_plot_boxplot_regression none [] none).ret = "Error: No Data" ∧
    "Error: No Data" ≠ "Success" ∧
    "Error: No Data" ≠ "Error: No valid data found (all NaNs or empty)" :=
  ⟨rfl, by decide, by decide⟩

/-- C4 (amended): across the call surface the explicit non-`"Success"`
results are exactly the two boxplot error strings — the wrapper's
`"Error: No Data"` for an empty group list and the renderer's
`"Error: No valid data found (all NaNs or empty)"` — both returned as
strings; the other three calls return `"Success"` whenever they return. -/
theorem call_surface_returns (json_cfg : Option Config) (x y : List RVal)
    (ydd d2 dg : List (List RVal)) (xp : Option (List RVal)) (xv yv : List RVal) :
    (call_plot_line json_cfg x y).ret = "Success" ∧
    (∀ out, call_plot_multi_line json_cfg x ydd = some out → out.ret = "Success") ∧
    (call_plot_colormap json_cfg d2 xv yv).ret = "Success" ∧
    ((call_plot_boxplot_regression json_cfg dg xp).ret = "Success" ∨
     (call_plot_boxplot_regression json_cfg dg xp).ret = "Error: No Data" ∨
     (call_plot_boxplot_regression json_cfg dg xp).ret
        = "Error: No valid data found (all NaNs or empty)") := by
  refine ⟨rfl, ?_, rfl, ?_⟩
  · intro out h
    simp only [call_plot_multi_line, plot_multi_line] at h
    split at h
    · exact absurd h (by simp)
    · cases h
      rfl
  · by_cases hdg : dg.length = 0
    · simp [call_plot_boxplot_regression, hdg]
    · by_cases hcl : (cleanData xp dg).1.length = 0
      · simp [call_plot_boxplot_regression, plot_boxplot_regression, hdg, hcl]
      · simp [call_plot_boxplot_regression, plot_boxplot_regression, hdg, hcl]

theorem call_surface_returns_witness :
    ({ usedLabels := [JVal.str "Line 1"], baseStyle := [], fileSaved := true,
       ret := "Success" } : MultiLineOutcome).ret = "Success" :=
  (call_surface_returns none [] [] [[]] [] [] none [] []).2.1 _ rfl

theorem enum_map_cleanGroup (dg : List (List RVal)) :
    (dg.enum.map fun p => cleanGroup p.2) = dg.map cleanGroup := by
  have h : (dg.enum.map fun p => cleanGroup p.2)
      = (dg.enum.map Prod.snd).map cleanGroup := by
    rw [List.map_map]
    rfl
  rw [h, List.enum_map_snd]

/-- C5 counterexample: an infinite value is not NaN, so it survives the
cleaning step of `plot_boxplot_regression` even though it is non-finite. -/
theorem nonfinite_survives_counterexample :
    (cleanData none [[RVal.inf]]).1 = [[RVal.inf]] ∧ RVal.inf.isfinite = false :=
  ⟨rfl, rfl⟩

/-- C5 (amended): in the cleaning step, every NaN value (not every
non-finite value) is filtered out of each data group, groups left empty are
dropped, and exactly the x-position entries at the indices of surviving
groups (when those indices are within the positions array) are kept, in
order; with no positions array, no positions are kept. -/
theorem clean_step_characterization (x_positions : Option (List RVal))
    (data_groups : List (List RVal)) :
    (cleanData x_positions data_groups).1
        = (data_groups.map cleanGroup).filter (fun g => g.length > 0) ∧
    (∀ g ∈ (cleanData x_positions data_groups).1, ∀ v ∈ g, v.isnan = false) ∧
    (∀ xs, x_positions = some xs →
      (cleanData x_positions data_groups).2
        = data_groups.enum.filterMap fun p =>
            if (cleanGroup p.2).length > 0 then
              if p.1 < xs.length then some (xs.getD p.1 RVal.nan) else none
            else none) ∧
    (x_positions = none → (cleanData x_positions data_groups).2 = []) := by
  have h1 : (cleanData x_positions data_groups).1
      = (data_groups.map cleanGroup).filter (fun g => g.length > 0) := by
    rw [cleanData, cleanLoop_fst, enum_map_cleanGroup]
  refine ⟨h1, ?_, ?_, ?_⟩
  · intro g hg v hv
    rw [h1] at hg
    rcases List.mem_map.mp (List.mem_of_mem_filter hg) with ⟨g0, _, rfl⟩
    have := List.of_mem_filter hv
    simpa using this
  · rintro xs rfl
    exact cleanLoop_snd_some xs data_groups.enum
  · rintro rfl
    exact cleanLoop_snd_none data_groups.enum

theorem clean_step_characterization_witness :
    RVal.isnan (RVal.num 2) = false ∧
    (cleanData (some [RVal.num 7, RVal.num 8]) [[RVal.nan], [RVal.num 2]]).2
      = ([[RVal.nan], [RVal.num 2]] : List (List RVal)).enum.filterMap (fun p =>
            if (cleanGroup p.2).length > 0 then
              if p.1 < ([RVal.num 7, RVal.num 8] : List RVal).length then
                some (([RVal.num 7, RVal.num 8] : List RVal).getD p.1 RVal.nan)
              else none
            else none) :=
  ⟨(clean_step_characterization (some [RVal.num 7, RVal.num 8]) [[RVal.nan], [RVal.num 2]]).2.1
      [RVal.num 2] (by decide) (RVal.num 2) (by decide),
   (clean_step_characterization (some [RVal.num 7, RVal.num 8]) [[RVal.nan], [RVal.num 2]]).2.2.1
      [RVal.num 7, RVal.num 8] rfl⟩

theorem styleArgsAux_mem (config : Config) (pfx : String) (keys : List String)
    (k : String) (v : JVal) (h : (k, v) ∈ styleArgsAux config pfx keys) :
    lookupConfig config (pfx ++ k) = some v ∧ v.isEmptyStr = false ∧ v.isNull = false := by
  induction keys with
  | nil => simp [styleArgsAux] at h
  | cons key rest ih =>
    simp only [styleArgsAux] at h
    rcases hl : lookupConfig config (pfx ++ key) with _ | val
    · rw [hl] at h
      exact ih h
    · rw [hl] at h
      have h' : (k, v) ∈
          (if (!val.isNull && !val.isEmptyStr) = true then
            (key, val) :: styleArgsAux config pfx rest
          else styleArgsAux config pfx rest) := h
      by_cases hv : (!val.isNull && !val.isEmptyStr) = true
      · rw [if_pos hv] at h'
        rcases List.mem_cons.mp h' with heq | hmem
        · rcases Prod.mk.injEq .. ▸ heq with ⟨rfl, rfl⟩
          simp only [Bool.and_eq_true, Bool.not_eq_true'] at hv
          exact ⟨hl, hv.2, hv.1⟩
        · exact ih hmem
      · rw [if_neg hv] at h'
        exact ih h'

/-- C6 counterexample: an empty-string `cmap` value does override the
`"viridis"` default — `config.get("cmap", "viridis")` passes the empty
string straight through. -/
theorem empty_string_cmap_counterexample :
    (plot_colormap (some [("cmap", JVal.str "")]) [] none none).cmapUsed = JVal.str "" ∧
    JVal.str "" ≠ JVal.str "viridis" :=
  ⟨rfl, fun h => absurd (JVal.str.inj h) (by decide)⟩

/-- C6 (amended): an empty-string value is treated as unset for the five
line-style keys (with any prefix) and for `box_color`, but keys read with
`config.get(key, default)` — such as `cmap` — pass an empty string straight
through, overriding the default. -/
theorem empty_string_unset_policy (config : Config) (pfx key : String) :
    (key ∈ styleKeys → lookupConfig config (pfx ++ key) = some (JVal.str "") →
      ∀ v : JVal, (key, v) ∉ get_line_style config pfx) ∧
    (lookupConfig config "box_color" = some (JVal.str "") →
      boxColorEff config = JVal.str "black") ∧
    (∀ v : JVal, lookupConfig config "cmap" = some v →
      ∀ (d2 : List (List RVal)) (xv yv : Option (List RVal)),
        (plot_colormap (some config) d2 xv yv).cmapUsed = v) := by
  refine ⟨?_, ?_, ?_⟩
  · intro _ hlook v hmem
    rcases styleArgsAux_mem config pfx styleKeys key v hmem with ⟨hl, hes, _⟩
    rw [hlook] at hl
    cases hl
    simp [JVal.isEmptyStr] at hes
  · intro hlook
    simp [boxColorEff, hlook, JVal.truthy]
  · intro v hlook d2 xv yv
    simp [plot_colormap, hlook]

theorem empty_string_unset_policy_witness :
    (("color", JVal.str "")
        ∉ get_line_style [("color", JVal.str ""), ("box_color", JVal.str ""),
            ("cmap", JVal.str "x")] "") ∧
    boxColorEff [("color", JVal.str ""), ("box_color", JVal.str ""),
        ("cmap", JVal.str "x")] = JVal.str "black" ∧
    (plot_colormap (some [("color", JVal.str ""), ("box_color", JVal.str ""),
        ("cmap", JVal.str "x")]) [] none none).cmapUsed = JVal.str "x" :=
  ⟨(empty_string_unset_policy [("color", JVal.str ""), ("box_color", JVal.str ""),
        ("cmap", JVal.str "x")] "" "color").1 (by decide) rfl (JVal.str ""),
   (empty_string_unset_policy [("color", JVal.str ""), ("box_color", JVal.str ""),
        ("cmap", JVal.str "x")] "" "color").2.1 rfl,
   (empty_string_unset_policy [("color", JVal.str ""), ("box_color", JVal.str ""),
        ("cmap", JVal.str "x")] "" "color").2.2 (JVal.str "x") rfl [] none none⟩

/-- C7: the filtered x-positions are used for the boxplot exactly when a
positions array was supplied and the filtered positions count equals the
surviving group count (otherwise positions default to `None`), and the
regression fit with its overlay line happens only in that usable-positions
case. -/
theorem positions_and_regression_gating (json_cfg : Option Config)
    (data_groups : List (List RVal)) (x_positions : Option (List RVal))
    (h : (cleanData x_positions data_groups).1 ≠ []) :
    ((plot_boxplot_regression json_cfg data_groups x_positions).usedPositions
      = if x_positions.isSome
            && ((cleanData x_positions data_groups).2.length
                == (cleanData x_positions data_groups).1.length) then
          some (cleanData x_positions data_groups).2
        else none) ∧
    ((plot_boxplot_regression json_cfg data_groups x_positions).regressionComputed = true →
      (plot_boxplot_regression json_cfg data_groups x_positions).usedPositions.isSome = true) ∧
    ((plot_boxplot_regression json_cfg data_groups x_positions).regressionLineDrawn
      = (plot_boxplot_regression json_cfg data_groups x_positions).regressionComputed) := by
  have hlen : ¬ (cleanData x_positions data_groups).1.length = 0 := by
    simpa [List.length_eq_zero] using h
  refine ⟨?_, ?_, ?_⟩
  · simp [plot_boxplot_regression, hlen]
  · simp [plot_boxplot_regression, hlen]
    exact fun a b _ => ⟨a, b⟩
  · simp [plot_boxplot_regression, hlen]

theorem positions_gating_witness :
    (plot_boxplot_regression none [[RVal.num 1, RVal.num 2]]
        (some [RVal.num 0])).usedPositions.isSome = true :=
  (positions_and_regression_gating none [[RVal.num 1, RVal.num 2]]
      (some [RVal.num 0]) (by decide)).2.1 rfl

/-- C10: with usable positions but at most one cleaned data point in total,
the regression step is skipped entirely (no fit, no overlay line, no stats
text) while the boxplot is still drawn, the file is still saved, and the
call returns `"Success"`. -/
theorem single_point_skips_regression (json_cfg : Option Config)
    (data_groups : List (List RVal)) (x_positions : Option (List RVal))
    (h : (cleanData x_positions data_groups).1 ≠ [])
    (_hpos : (plot_boxplot_regression json_cfg data_groups
        x_positions).usedPositions.isSome = true)
    (hflat : ((cleanData x_positions data_groups).1.map List.length).sum ≤ 1) :
    (plot_boxplot_regression json_cfg data_groups x_positions).regressionComputed = false ∧
    (plot_boxplot_regression json_cfg data_groups x_positions).regressionLineDrawn = false ∧
    (plot_boxplot_regression json_cfg data_groups x_positions).statsShown = false ∧
    (plot_boxplot_regression json_cfg data_groups x_positions).boxplotDrawn = true ∧
    (plot_boxplot_regression json_cfg data_groups x_positions).fileSaved = true ∧
    (plot_boxplot_regression json_cfg data_groups x_positions).ret = "Success" := by
  have hlen : ¬ (cleanData x_positions data_groups).1.length = 0 := by
    simpa [List.length_eq_zero] using h
  have hnotlt : ¬ (1 < ((cleanData x_positions data_groups).1.map List.length).sum) := by
    omega
  refine ⟨?_, ?_, ?_, ?_, ?_, ?_⟩ <;> simp [plot_boxplot_regression, hlen, hnotlt]

theorem single_point_skips_regression_witness :
    (plot_boxplot_regression none [[RVal.num 5]] (some [RVal.num 1])).regressionComputed
        = false ∧
    (plot_boxplot_regression none [[RVal.num 5]] (some [RVal.num 1])).regressionLineDrawn
        = false ∧
    (plot_boxplot_regression none [[RVal.num 5]] (some [RVal.num 1])).statsShown = false ∧
    (plot_boxplot_regression none [[RVal.num 5]] (some [RVal.num 1])).boxplotDrawn = true ∧
    (plot_boxplot_regression none [[RVal.num 5]] (some [RVal.num 1])).fileSaved = true ∧
    (plot_boxplot_regression none [[RVal.num 5]] (some [RVal.num 1])).ret = "Success" :=
  single_point_skips_regression none [[RVal.num 5]] (some [RVal.num 1])
    (by decide) rfl (by decide)

/-- C8 counterexample: a boxplot call whose JSON configuration is malformed
and whose single data group is all NaN returns the empty-data error string
and writes no output file, so not every rendering call with a malformed
configuration still writes a file and returns `"Success"`. -/
theorem malformed_json_not_always_success :
    (plot_boxplot_regression none [[RVal.nan]] none).ret ≠ "Success" ∧
    (plot_boxplot_regression none [[RVal.nan]] none).fileSaved = false :=
  ⟨by decide, rfl⟩

/-- C8 (amended): a malformed JSON configuration never raises from parsing:
each renderer silently substitutes the empty mapping and behaves exactly as
the same call with an empty configuration; line and colormap calls still
write a file and return `"Success"`, as does a multi-line call whenever it
returns, while the boxplot call keeps its empty-data error path. -/
theorem malformed_json_fallback (x y : List RVal) (ydd d2 dg : List (List RVal))
    (xp : Option (List RVal)) (xv yv : Option (List RVal)) :
    plot_line none x y = plot_line (some []) x y ∧
    plot_multi_line none x ydd = plot_multi_line (some []) x ydd ∧
    plot_boxplot_regression none dg xp = plot_boxplot_regression (some []) dg xp ∧
    plot_colormap none d2 xv yv = plot_colormap (some []) d2 xv yv ∧
    (plot_line none x y).fileSaved = true ∧ (plot_line none x y).ret = "Success" ∧
    (plot_colormap none d2 xv yv).fileSaved = true ∧
    (plot_colormap none d2 xv yv).ret = "Success" ∧
    (∀ out, plot_multi_line none x ydd = some out →
      out.fileSaved = true ∧ out.ret = "Success") := by
  refine ⟨rfl, rfl, rfl, rfl, rfl, rfl, rfl, rfl, ?_⟩
  intro out h
  simp only [plot_multi_line] at h
  split at h
  · exact absurd h (by simp)
  · cases h
    exact ⟨rfl, rfl⟩

theorem malformed_json_fallback_witness :
    ({ usedLabels := [JVal.str "Line 1"], baseStyle := [], fileSaved := true,
       ret := "Success" } : MultiLineOutcome).fileSaved = true ∧
    ({ usedLabels := [JVal.str "Line 1"], baseStyle := [], fileSaved := true,
       ret := "Success" } : MultiLineOutcome).ret = "Success" :=
  (malformed_json_fallback [] [] [[]] [] [] none none none).2.2.2.2.2.2.2.2 _ rfl

/-- The label `plot_multi_line` gives row `k` when `labels` is a JSON list:
the supplied entry when `k` is in range, else the generated `"Line {k+1}"`. -/
def genLabel (lbls : List JVal) (k : ℕ) : JVal :=
  if k < lbls.length then lbls.getD k JVal.null
  else JVal.str ("Line " ++ toString (k + 1))

theorem rowLabelsLoop_arr (lbls : List JVal) :
    ∀ (n i : ℕ), rowLabelsLoop (JVal.arr lbls) i n
      = some ((List.range n).map fun j => genLabel lbls (i + j)) := by
  intro n
  induction n with
  | zero => intro i; rfl
  | succ n ih =>
    intro i
    have h1 : rowLabel (JVal.arr lbls) i = some (genLabel lbls i) := by
      by_cases hi : i < lbls.length <;>
        simp [rowLabel, genLabel, JVal.seqItems, hi]
    simp only [rowLabelsLoop, h1, ih (i + 1), List.range_succ_eq_map, List.map_cons,
      List.map_map, Function.comp, Nat.succ_eq_add_one, Nat.add_zero]
    have h3 : (fun j => genLabel lbls (i + 1 + j)) = fun j : ℕ => genLabel lbls (i + (j + 1)) := by
      funext j
      congr 1
      omega
    rw [h3]
    simp [Function.comp_def, Nat.succ_eq_add_one]

theorem rowLabelsLoop_arr_zero (lbls : List JVal) (n : ℕ) :
    rowLabelsLoop (JVal.arr lbls) 0 n = some ((List.range n).map (genLabel lbls)) := by
  rw [rowLabelsLoop_arr lbls n 0]
  simp

/-- C9: in `plot_multi_line`, a series row `i` beyond the end of the
configured labels list receives the generated label `"Line {i+1}"`, while a
row with a supplied label keeps it. -/
theorem multi_line_label_assignment (lbls : List JVal) (x : List RVal)
    (ydd : List (List RVal)) (out : MultiLineOutcome)
    (h : plot_multi_line (some [("labels", JVal.arr lbls)]) x ydd = some out) :
    out.usedLabels = (List.range ydd.length).map fun i =>
      if i < lbls.length then lbls.getD i JVal.null
      else JVal.str ("Line " ++ toString (i + 1)) := by
  have hL : rowLabelsLoop ((lookupConfig [("labels", JVal.arr lbls)] "labels").getD
        (JVal.arr [])) 0 ydd.length
      = some ((List.range ydd.length).map (genLabel lbls)) :=
    rowLabelsLoop_arr_zero lbls ydd.length
  simp only [plot_multi_line, Option.getD_some, hL] at h
  injection h with h'
  rw [← h']
  simp [genLabel]

theorem multi_line_label_assignment_witness :
    ({ usedLabels := [JVal.str "A", JVal.str "Line 2"], baseStyle := [],
       fileSaved := true, ret := "Success" } : MultiLineOutcome).usedLabels
      = (List.range 2).map fun i =>
          if i < [JVal.str "A"].length then [JVal.str "A"].getD i JVal.null
          else JVal.str ("Line " ++ toString (i + 1)) :=
  multi_line_label_assignment [JVal.str "A"] [] [[], []] _ rfl
